import Mathlib

/-!
Shallow embedding of the ArduPilot weathervane controller AC_WeatherVane
(libraries/AC_AttitudeControl/AC_WeatherVane.cpp), with proofs about the
yaw-demand calculation, the deadzone, the relax override, the slew filter,
and the `should_weathervane` eligibility gate.

Floats are modelled as rationals (exact real-valued arithmetic); the
int16 lean-angle inputs are integers; the uint32 millisecond
timestamps are naturals reduced modulo `2^32`, with the wraparound-safe
unsigned subtraction sub32 used for every interval comparison.
-/

namespace WeatherVane

/-- The uint32 modulus for millisecond timestamps. -/
def M32 : ℕ := 2 ^ 32

/-- A natural number reduced to its uint32 value. -/
def u32 (a : ℕ) : ℕ := a % M32

/-- Wraparound-safe unsigned 32-bit subtraction `a - b`, as C computes
now - earlier on uint32 values. -/
def sub32 (a b : ℕ) : ℕ := (u32 a + M32 - u32 b) % M32

/-- The Direction enum of the source (later variant, with SIDE_IN). -/
inductive Direction where
  | OFF
  | NOSE_IN
  | NOSE_OR_TAIL_IN
  | SIDE_IN
deriving DecidableEq, Repr

/-- The WVANE parameters read by the controller (var_info table):
direction, gain, minimum deadzone angle in degrees, minimum height in
metres, and the two velocity ceilings in m/s. -/
structure Params where
  direction : Direction
  gain : ℚ
  min_dz_ang_deg : ℚ
  min_height : ℤ
  max_vel_xy : ℚ
  max_vel_z : ℚ
deriving DecidableEq, Repr

/-- The mutable fields of the controller used by the later-variant
implementation. Timestamps are stored as uint32 values. -/
structure State where
  last_output : ℚ
  active_msg_sent : Bool
  should_relax : Bool
  first_activate_ms : ℕ
  last_pilot_input_ms : ℕ
deriving DecidableEq, Repr

/-- Readings the gate takes from its collaborators on one call: the
inertial-nav speed/velocity/altitude (cm and cm/s) and the terrain
service's availability, enabled flag, lookup success and height (m). -/
structure Env where
  speed_xy_cms : ℚ
  velocity_z_cms : ℚ
  altitude_cm : ℚ
  terrain_available : Bool
  terrain_enabled : Bool
  terrain_lookup_ok : Bool
  terrain_height_m : ℚ
deriving DecidableEq, Repr

/-- The reset member function: zero the filtered output, clear the message
and relax flags, clear the activation latch. The field last_pilot_input_ms is
not touched. -/
def State.reset (s : State) : State :=
  { s with
    last_output := 0
    active_msg_sent := false
    should_relax := false
    first_activate_ms := 0 }

/-- The set_relax member function (header): store the flag. -/
def set_relax (s : State) (relax : Bool) : State :=
  { s with should_relax := relax }

/-- The direction switch block of get_yaw_rate_cds: the raw
signed yaw-rate demand before the deadzone. -/
def raw_demand (p : Params) (roll_cdeg pitch_cdeg : ℤ) : ℚ :=
  match p.direction with
  | Direction.OFF => 0
  | Direction.NOSE_OR_TAIL_IN =>
    let output : ℚ := (roll_cdeg : ℚ) * p.gain
    if 0 < pitch_cdeg then output * (-1) else output
  | Direction.NOSE_IN =>
    let output : ℚ := (|(roll_cdeg : ℚ)| + max (pitch_cdeg : ℚ) 0) * p.gain
    if roll_cdeg < 0 then output * (-1) else output
  | Direction.SIDE_IN =>
    let output : ℚ := (pitch_cdeg : ℚ) * p.gain
    if roll_cdeg < 0 then output * (-1) else output

/-- The deadzone stage of get_yaw_rate_cds: zero the demand when the
reference angle (pitch for SIDE_IN, roll otherwise) is inside the
deadzone, unless direction is NOSE_IN and pitch alone exceeds it. -/
def apply_deadzone (p : Params) (roll_cdeg pitch_cdeg : ℤ) (output : ℚ) : ℚ :=
  let angle : ℚ := if p.direction = Direction.SIDE_IN then (pitch_cdeg : ℚ) else (roll_cdeg : ℚ)
  if |angle| < p.min_dz_ang_deg * 100 ∧
      ¬(p.min_dz_ang_deg * 100 < (pitch_cdeg : ℚ) ∧ p.direction = Direction.NOSE_IN) then
    0
  else
    output

/-- One application of the slew filter:
last_output = 0.98 * last_output + 0.02 * output. -/
def slew (last_output output : ℚ) : ℚ :=
  (98 / 100) * last_output + (2 / 100) * output

/-- The get_yaw_rate_cds member function (later variant): returns the
commanded yaw rate and the updated state. The active message is sent
(flag set) before the direction switch; OFF returns 0 without touching
the filter state; otherwise demand, deadzone, relax and slew run in
order. -/
def get_yaw_rate_cds (p : Params) (s0 : State) (roll_cdeg pitch_cdeg : ℤ) : ℚ × State :=
  let s := { s0 with active_msg_sent := true }
  if p.direction = Direction.OFF then
    (0, s)
  else
    let output := apply_deadzone p roll_cdeg pitch_cdeg (raw_demand p roll_cdeg pitch_cdeg)
    let output := if s.should_relax then 0 else output
    let s := if s.should_relax then { s with should_relax := false } else s
    let new_output := slew s.last_output output
    (new_output, { s with last_output := new_output })

/-- The below_min_height member function (later variant): false when
`_min_height <= 0`; false when terrain is available, enabled, the lookup
succeeds and the terrain height clears the minimum; false when the
inertial-nav altitude (cm, scaled by 0.01) clears the minimum; true
otherwise. -/
def below_min_height (p : Params) (e : Env) : Bool :=
  if p.min_height ≤ 0 then
    false
  else if e.terrain_available ∧ e.terrain_enabled ∧ e.terrain_lookup_ok ∧
      (p.min_height : ℚ) ≤ e.terrain_height_m then
    false
  else if (p.min_height : ℚ) ≤ e.altitude_cm * (1 / 100) then
    false
  else
    true

/-- The should_weathervane member function (later variant): the eligibility
gate. now is the millisecond counter; every disqualifying branch
resets the state, and the final 2000 ms settle window returns false
without resetting. -/
def should_weathervane (p : Params) (e : Env) (s : State)
    (pilot_yaw roll_cdeg pitch_cdeg : ℤ) (now : ℕ) : Bool × State :=
  if p.direction = Direction.OFF then
    (false, s.reset)
  else if pilot_yaw ≠ 0 then
    (false, State.reset { s with last_pilot_input_ms := u32 now })
  else if sub32 now s.last_pilot_input_ms < 3000 then
    (false, s.reset)
  else if below_min_height p e then
    (false, s.reset)
  else if 0 < p.max_vel_xy ∧ p.max_vel_xy < e.speed_xy_cms * (1 / 100) then
    (false, s.reset)
  else if 0 < p.max_vel_z ∧ p.max_vel_z < |e.velocity_z_cms| * (1 / 100) then
    (false, s.reset)
  else
    let s1 := if s.first_activate_ms = 0 then { s with first_activate_ms := u32 now } else s
    if sub32 now s1.first_activate_ms < 2000 then
      (false, s1)
    else
      (true, s1)

/-- The inputs of one gate call: collaborator readings, the three int16
arguments, and the millisecond timestamp. -/
structure Call where
  env : Env
  pilot_yaw : ℤ
  roll_cdeg : ℤ
  pitch_cdeg : ℤ
  now : ℕ
deriving DecidableEq, Repr

/-- Run the gate over a sequence of calls, collecting each call's result
and post-state. -/
def gate_trace (p : Params) (s : State) : List Call → List (Bool × State)
  | [] => []
  | c :: cs =>
    let r := should_weathervane p c.env s c.pilot_yaw c.roll_cdeg c.pitch_cdeg c.now
    r :: gate_trace p r.2 cs

/-- The checks of gate steps 1 to 6 (enable, pilot input, pilot debounce,
height, horizontal speed, vertical speed), as a predicate on the call's
inputs and the stored last-pilot-input timestamp. -/
def passes_checks (p : Params) (e : Env) (lpim : ℕ) (pilot_yaw : ℤ) (now : ℕ) : Prop :=
  p.direction ≠ Direction.OFF ∧
  pilot_yaw = 0 ∧
  3000 ≤ sub32 now lpim ∧
  below_min_height p e = false ∧
  ¬(0 < p.max_vel_xy ∧ p.max_vel_xy < e.speed_xy_cms * (1 / 100)) ∧
  ¬(0 < p.max_vel_z ∧ p.max_vel_z < |e.velocity_z_cms| * (1 / 100))

instance (p : Params) (e : Env) (lpim : ℕ) (pilot_yaw : ℤ) (now : ℕ) :
    Decidable (passes_checks p e lpim pilot_yaw now) := by
  unfold passes_checks
  infer_instance

/-! Sample parameter sets, environments and states used by witnesses and
counterexamples. -/

/-- Sample parameters with weathervaning disabled. -/
def pOFF : Params := ⟨Direction.OFF, 1, 1, 2, 2, 1⟩

/-- Sample nose-in parameters with gain 1 and every optional gate check
disabled (deadzone 0, min height 0, velocity ceilings 0). -/
def pNoseIn : Params := ⟨Direction.NOSE_IN, 1, 0, 0, 0, 0⟩

/-- A quiescent environment. -/
def eInit : Env := ⟨0, 0, 0, false, false, false, 0⟩

/-- The baseline state: everything zero or false. -/
def sInit : State := ⟨0, false, false, 0, 0⟩

/-! Arithmetic facts about the wraparound-safe subtraction. -/

theorem sub32_eq_sub {a b : ℕ} (hle : b ≤ a) (hlt : a - b < M32) :
    sub32 a b = a - b := by
  unfold sub32 u32 M32 at *
  omega

theorem sub32_u32_right (a b : ℕ) : sub32 a (u32 b) = sub32 a b := by
  unfold sub32 u32 M32
  omega

theorem sub32_self (a : ℕ) : sub32 a a = 0 := by
  unfold sub32 u32 M32
  omega

/-! Structural lemmas about the demand pipeline. -/

/-- With weathervaning enabled and no relax request pending, one call of
get_yaw_rate_cds slews the stored output toward the post-deadzone demand
and marks the active message as sent. -/
theorem get_yaw_rate_cds_no_relax (p : Params) (hd : p.direction ≠ Direction.OFF)
    (s : State) (hr : s.should_relax = false) (roll_cdeg pitch_cdeg : ℤ) :
    get_yaw_rate_cds p s roll_cdeg pitch_cdeg =
      (slew s.last_output (apply_deadzone p roll_cdeg pitch_cdeg (raw_demand p roll_cdeg pitch_cdeg)),
       { s with
         active_msg_sent := true,
         last_output :=
           slew s.last_output (apply_deadzone p roll_cdeg pitch_cdeg (raw_demand p roll_cdeg pitch_cdeg)) }) := by
  simp [get_yaw_rate_cds, hd, hr]

/-- C8: with direction OFF, get_yaw_rate_cds returns 0 and
should_weathervane resets the controller state and returns false. -/
theorem off_zero_output_and_gate_false (p : Params) (s : State) (e : Env)
    (roll_cdeg pitch_cdeg pilot_yaw : ℤ) (now : ℕ)
    (hd : p.direction = Direction.OFF) :
    (get_yaw_rate_cds p s roll_cdeg pitch_cdeg).1 = 0 ∧
    should_weathervane p e s pilot_yaw roll_cdeg pitch_cdeg now = (false, s.reset) := by
  constructor
  · simp [get_yaw_rate_cds, hd]
  · simp [should_weathervane, hd]

/-- Witness for C8 at concrete inputs. -/
theorem off_zero_output_and_gate_false_witness :
    pOFF.direction = Direction.OFF ∧
    (get_yaw_rate_cds pOFF sInit 300 (-200)).1 = 0 ∧
    should_weathervane pOFF eInit sInit 5 300 (-200) 1000 = (false, sInit.reset) :=
  ⟨rfl,
   off_zero_output_and_gate_false pOFF sInit eInit 300 (-200) 5 1000 rfl⟩

/-- C10: reset zeroes the output, the message flag, the relax flag and the
activation latch, preserves last_pilot_input_ms, and because of that
preservation a gate call on the reset state inside the 3000 ms pilot
debounce window still returns false. -/
theorem reset_frame_and_debounce (s : State) :
    s.reset = ⟨0, false, false, 0, s.last_pilot_input_ms⟩ ∧
    ∀ (p : Params) (e : Env) (roll_cdeg pitch_cdeg : ℤ) (now : ℕ),
      sub32 now s.last_pilot_input_ms < 3000 →
      (should_weathervane p e s.reset 0 roll_cdeg pitch_cdeg now).1 = false := by
  refine ⟨rfl, fun p e roll_cdeg pitch_cdeg now h => ?_⟩
  by_cases hd : p.direction = Direction.OFF
  · simp [should_weathervane, hd]
  · have hlp : (State.reset s).last_pilot_input_ms = s.last_pilot_input_ms := rfl
    simp [should_weathervane, hd, hlp, h]

/-- Witness for C10 at a concrete state and call. -/
theorem reset_frame_and_debounce_witness :
    sInit.reset = ⟨0, false, false, 0, sInit.last_pilot_input_ms⟩ ∧
    sub32 100 sInit.last_pilot_input_ms < 3000 ∧
    (should_weathervane pNoseIn eInit sInit.reset 0 0 0 100).1 = false :=
  ⟨(reset_frame_and_debounce sInit).1,
   by decide,
   (reset_frame_and_debounce sInit).2 pNoseIn eInit 0 0 100 (by decide)⟩

/-- C1: in NOSE_IN mode, the raw demand is (|roll| + max(pitch, 0)) * gain
with the sign of roll: it is negated exactly when roll < 0, its magnitude
is nondecreasing in pitch, its sign never flips as pitch varies, and it is
nonnegative for roll >= 0 and nonpositive for roll < 0. -/
theorem nose_in_demand (p : Params) (hd : p.direction = Direction.NOSE_IN)
    (hg : 0 ≤ p.gain) (roll_cdeg pitch_cdeg : ℤ) :
    raw_demand p roll_cdeg pitch_cdeg =
      (if roll_cdeg < 0 then (-1 : ℚ) else 1) *
        ((|(roll_cdeg : ℚ)| + max (pitch_cdeg : ℚ) 0) * p.gain) ∧
    (∀ q q' : ℤ, q ≤ q' → |raw_demand p roll_cdeg q| ≤ |raw_demand p roll_cdeg q'|) ∧
    (∀ q q' : ℤ, 0 ≤ raw_demand p roll_cdeg q * raw_demand p roll_cdeg q') ∧
    (0 ≤ roll_cdeg → 0 ≤ raw_demand p roll_cdeg pitch_cdeg) ∧
    (roll_cdeg < 0 → raw_demand p roll_cdeg pitch_cdeg ≤ 0) := by
  have heq : ∀ q : ℤ, raw_demand p roll_cdeg q =
      (if roll_cdeg < 0 then (-1 : ℚ) else 1) *
        ((|(roll_cdeg : ℚ)| + max (q : ℚ) 0) * p.gain) := by
    intro q
    simp only [raw_demand, hd]
    split_ifs <;> ring
  have hbase : ∀ q : ℤ, (0 : ℚ) ≤ (|(roll_cdeg : ℚ)| + max (q : ℚ) 0) * p.gain := by
    intro q
    exact mul_nonneg (add_nonneg (abs_nonneg _) (le_max_right _ _)) hg
  have habs : ∀ q : ℤ, |raw_demand p roll_cdeg q| =
      (|(roll_cdeg : ℚ)| + max (q : ℚ) 0) * p.gain := by
    intro q
    rw [heq q]
    rcases lt_or_ge roll_cdeg 0 with h | h
    · rw [if_pos h, abs_mul, abs_of_nonneg (hbase q)]
      norm_num
    · rw [if_neg (not_lt.mpr h), one_mul, abs_of_nonneg (hbase q)]
  refine ⟨heq pitch_cdeg, ?_, ?_, ?_, ?_⟩
  · intro q q' hqq
    rw [habs q, habs q']
    have hmax : max ((q : ℚ)) 0 ≤ max ((q' : ℚ)) 0 :=
      max_le_max (by exact_mod_cast hqq) le_rfl
    exact mul_le_mul_of_nonneg_right (by linarith) hg
  · intro q q'
    rw [heq q, heq q']
    have h1 := hbase q
    have h2 := hbase q'
    rcases lt_or_ge roll_cdeg 0 with h | h
    · rw [if_pos h]
      nlinarith
    · rw [if_neg (not_lt.mpr h)]
      nlinarith
  · intro h
    rw [heq pitch_cdeg, if_neg (not_lt.mpr h), one_mul]
    exact hbase pitch_cdeg
  · intro h
    rw [heq pitch_cdeg, if_pos h]
    have := hbase pitch_cdeg
    nlinarith

/-- Witness for C1 at concrete inputs. -/
theorem nose_in_demand_witness :
    pNoseIn.direction = Direction.NOSE_IN ∧ 0 ≤ pNoseIn.gain ∧
    (raw_demand pNoseIn (-300) 200 =
      (if (-300 : ℤ) < 0 then (-1 : ℚ) else 1) *
        ((|((-300 : ℤ) : ℚ)| + max (((200 : ℤ) : ℚ)) 0) * pNoseIn.gain) ∧
    (∀ q q' : ℤ, q ≤ q' → |raw_demand pNoseIn (-300) q| ≤ |raw_demand pNoseIn (-300) q'|) ∧
    (∀ q q' : ℤ, 0 ≤ raw_demand pNoseIn (-300) q * raw_demand pNoseIn (-300) q') ∧
    (0 ≤ (-300 : ℤ) → 0 ≤ raw_demand pNoseIn (-300) 200) ∧
    ((-300 : ℤ) < 0 → raw_demand pNoseIn (-300) 200 ≤ 0)) :=
  ⟨rfl, by norm_num [pNoseIn],
   nose_in_demand pNoseIn rfl (by norm_num [pNoseIn]) (-300) 200⟩

/-- C2: for every non-OFF direction the deadzone stage zeroes the demand
exactly when the reference angle (pitch for SIDE_IN, roll otherwise) is
inside min_dz_ang_deg * 100 centidegrees and the NOSE_IN pitch exception
does not apply; the deadzone output is exactly what the relax and slew
stages consume; and in NOSE_IN with zero roll and pitch above the
threshold the demand is nonzero. -/
theorem deadzone_exact (p : Params) (hd : p.direction ≠ Direction.OFF)
    (roll_cdeg pitch_cdeg : ℤ) (d : ℚ) :
    apply_deadzone p roll_cdeg pitch_cdeg d =
      (if |(if p.direction = Direction.SIDE_IN then (pitch_cdeg : ℚ) else (roll_cdeg : ℚ))| <
            p.min_dz_ang_deg * 100 ∧
          ¬(p.direction = Direction.NOSE_IN ∧ p.min_dz_ang_deg * 100 < (pitch_cdeg : ℚ)) then 0
        else d) ∧
    (∀ s : State, s.should_relax = false →
      (get_yaw_rate_cds p s roll_cdeg pitch_cdeg).1 =
        slew s.last_output
          (apply_deadzone p roll_cdeg pitch_cdeg (raw_demand p roll_cdeg pitch_cdeg))) ∧
    (p.direction = Direction.NOSE_IN → 0 ≤ p.min_dz_ang_deg → 0 < p.gain →
      p.min_dz_ang_deg * 100 < (pitch_cdeg : ℚ) →
      apply_deadzone p 0 pitch_cdeg (raw_demand p 0 pitch_cdeg) ≠ 0) := by
  refine ⟨?_, ?_, ?_⟩
  · unfold apply_deadzone
    exact if_congr (by tauto) rfl rfl
  · intro s hr
    rw [get_yaw_rate_cds_no_relax p hd s hr]
  · intro hni hdz hg hp
    have hth : (0 : ℚ) ≤ p.min_dz_ang_deg * 100 := by positivity
    have hp0 : (0 : ℚ) < (pitch_cdeg : ℚ) := lt_of_le_of_lt hth hp
    have hraw : raw_demand p 0 pitch_cdeg = (pitch_cdeg : ℚ) * p.gain := by
      simp only [raw_demand, hni]
      rw [if_neg (by omega), max_eq_left hp0.le]
      simp
    unfold apply_deadzone
    rw [if_neg (by tauto)]
    rw [hraw]
    exact ne_of_gt (mul_pos hp0 hg)

/-- Witness for C2 at concrete inputs. -/
theorem deadzone_exact_witness :
    pNoseIn.direction ≠ Direction.OFF ∧
    (apply_deadzone pNoseIn 17 (-5) 7 =
      (if |(if pNoseIn.direction = Direction.SIDE_IN then ((-5 : ℤ) : ℚ) else ((17 : ℤ) : ℚ))| <
            pNoseIn.min_dz_ang_deg * 100 ∧
          ¬(pNoseIn.direction = Direction.NOSE_IN ∧
            pNoseIn.min_dz_ang_deg * 100 < ((-5 : ℤ) : ℚ)) then 0
        else 7) ∧
    (∀ s : State, s.should_relax = false →
      (get_yaw_rate_cds pNoseIn s 17 (-5)).1 =
        slew s.last_output (apply_deadzone pNoseIn 17 (-5) (raw_demand pNoseIn 17 (-5)))) ∧
    (pNoseIn.direction = Direction.NOSE_IN → 0 ≤ pNoseIn.min_dz_ang_deg → 0 < pNoseIn.gain →
      pNoseIn.min_dz_ang_deg * 100 < ((-5 : ℤ) : ℚ) →
      apply_deadzone pNoseIn 0 (-5) (raw_demand pNoseIn 0 (-5)) ≠ 0)) :=
  ⟨by decide, deadzone_exact pNoseIn (by decide) 17 (-5) 7⟩

/-- With weathervaning enabled and a relax request pending, one call of
get_yaw_rate_cds feeds demand 0 to the slew filter and clears the relax
flag. -/
theorem get_yaw_rate_cds_relax (p : Params) (hd : p.direction ≠ Direction.OFF)
    (s : State) (hr : s.should_relax = true) (roll_cdeg pitch_cdeg : ℤ) :
    get_yaw_rate_cds p s roll_cdeg pitch_cdeg =
      (slew s.last_output 0,
       { s with
         active_msg_sent := true,
         should_relax := false,
         last_output := slew s.last_output 0 }) := by
  simp [get_yaw_rate_cds, hd, hr]

/-- A state with a nonzero slewed output, used to refute C6 as stated. -/
def s100 : State := ⟨100, false, false, 0, 0⟩

/-- Counterexample to C6 as stated: from a state with last_output = 100,
set_relax(true) followed by one get_yaw_rate_cds call returns 98, not 0
(the code zeroes the demand fed to the slew filter, not the returned
slewed output). -/
theorem relax_counterexample :
    pNoseIn.direction ≠ Direction.OFF ∧
    (get_yaw_rate_cds pNoseIn (set_relax s100 true) 0 0).1 = 98 ∧
    (get_yaw_rate_cds pNoseIn (set_relax s100 true) 0 0).1 ≠ 0 := by
  refine ⟨by decide, ?_, ?_⟩ <;>
    · simp [get_yaw_rate_cds, set_relax, s100, pNoseIn, slew]

/-- C6 amended: after set_relax(true), the next get_yaw_rate_cds call
feeds demand 0 to the slew filter, so it returns 0.98 * last_output
(0 whenever the stored output was 0, e.g. right after reset) and clears
should_relax; a following call without reasserting relax resumes the
normal slewed output driven by the current raw demand. -/
theorem relax_one_shot (p : Params) (hd : p.direction ≠ Direction.OFF) (s : State)
    (roll_cdeg pitch_cdeg roll' pitch' : ℤ) :
    (get_yaw_rate_cds p (set_relax s true) roll_cdeg pitch_cdeg).1 =
      (98 / 100) * s.last_output ∧
    (get_yaw_rate_cds p (set_relax s true) roll_cdeg pitch_cdeg).2.should_relax = false ∧
    (s.last_output = 0 →
      (get_yaw_rate_cds p (set_relax s true) roll_cdeg pitch_cdeg).1 = 0) ∧
    (get_yaw_rate_cds p
        (get_yaw_rate_cds p (set_relax s true) roll_cdeg pitch_cdeg).2 roll' pitch').1 =
      slew ((98 / 100) * s.last_output)
        (apply_deadzone p roll' pitch' (raw_demand p roll' pitch')) := by
  have hrel : (set_relax s true).should_relax = true := rfl
  rw [get_yaw_rate_cds_relax p hd (set_relax s true) hrel roll_cdeg pitch_cdeg]
  have hout : slew (set_relax s true).last_output 0 = (98 / 100) * s.last_output := by
    simp [slew, set_relax]
  refine ⟨hout, rfl, fun h0 => ?_, ?_⟩
  · rw [hout, h0, mul_zero]
  · rw [get_yaw_rate_cds_no_relax p hd _ rfl roll' pitch']
    simp [slew, set_relax]

/-- Witness for the amended C6 at concrete inputs. -/
theorem relax_one_shot_witness :
    pNoseIn.direction ≠ Direction.OFF ∧
    ((get_yaw_rate_cds pNoseIn (set_relax s100 true) 11 12).1 = (98 / 100) * s100.last_output ∧
    (get_yaw_rate_cds pNoseIn (set_relax s100 true) 11 12).2.should_relax = false ∧
    (s100.last_output = 0 →
      (get_yaw_rate_cds pNoseIn (set_relax s100 true) 11 12).1 = 0) ∧
    (get_yaw_rate_cds pNoseIn
        (get_yaw_rate_cds pNoseIn (set_relax s100 true) 11 12).2 13 14).1 =
      slew ((98 / 100) * s100.last_output)
        (apply_deadzone pNoseIn 13 14 (raw_demand pNoseIn 13 14))) :=
  ⟨by decide, relax_one_shot pNoseIn (by decide) s100 11 12 13 14⟩

/-- Modelled from the spec (section 4.1 step 4): the height check as claim
C7 words it, selecting the terrain-relative height when a terrain service
is available and enabled and otherwise the estimator's height above the
takeoff reference, and comparing the selected height against min_height.
Written only for comparison against the source's below_min_height. -/
def below_min_height_selected (p : Params) (e : Env) : Bool :=
  if p.min_height ≤ 0 then
    false
  else
    let height : ℚ :=
      if e.terrain_available ∧ e.terrain_enabled then e.terrain_height_m
      else e.altitude_cm * (1 / 100)
    decide (height < (p.min_height : ℚ))

/-- Parameters for the C7 counterexample: min height 2 m. -/
def pH : Params := ⟨Direction.NOSE_IN, 1, 0, 2, 0, 0⟩

/-- Environment for the C7 counterexample: terrain available, enabled and
valid at 1 m above ground, while the estimator reports 10 m above the
takeoff reference. -/
def eH : Env := ⟨0, 0, 1000, true, true, true, 1⟩

/-- Counterexample to C7 as stated: with terrain available and enabled and
the terrain-relative height (1 m) below min_height (2 m), the claim's
selected-height reading demands true, but below_min_height returns false
because the code falls through to the estimator altitude (10 m), which
clears the minimum. -/
theorem below_min_height_counterexample :
    0 < pH.min_height ∧
    eH.terrain_available = true ∧ eH.terrain_enabled = true ∧ eH.terrain_lookup_ok = true ∧
    eH.terrain_height_m < (pH.min_height : ℚ) ∧
    below_min_height_selected pH eH = true ∧
    below_min_height pH eH = false := by
  refine ⟨by decide, rfl, rfl, rfl, ?_, ?_, ?_⟩
  · norm_num [pH, eH]
  · simp [below_min_height_selected, pH, eH]
  · simp [below_min_height, pH, eH]
    norm_num

/-- C7 amended: below_min_height returns true iff min_height is positive,
the terrain path (available, enabled, lookup succeeded, terrain height at
least min_height) does not clear the check, and the estimator altitude is
below min_height; when it returns true, a gate call that passed the
earlier checks disqualifies with a reset. -/
theorem below_min_height_char (p : Params) (e : Env) :
    (below_min_height p e = true ↔
      0 < p.min_height ∧
      ¬(e.terrain_available = true ∧ e.terrain_enabled = true ∧ e.terrain_lookup_ok = true ∧
          (p.min_height : ℚ) ≤ e.terrain_height_m) ∧
      e.altitude_cm * (1 / 100) < (p.min_height : ℚ)) ∧
    (∀ (s : State) (roll_cdeg pitch_cdeg : ℤ) (now : ℕ),
      p.direction ≠ Direction.OFF →
      3000 ≤ sub32 now s.last_pilot_input_ms →
      below_min_height p e = true →
      should_weathervane p e s 0 roll_cdeg pitch_cdeg now = (false, s.reset)) := by
  constructor
  · unfold below_min_height
    split_ifs with h1 h2 h3
    · simp
      omega
    · simp only [Bool.false_eq_true, false_iff]
      intro h
      exact h.2.1 (by simpa using h2)
    · simp only [Bool.false_eq_true, false_iff]
      intro h
      exact absurd h.2.2 (not_lt.mpr h3)
    · simp only [true_iff]
      refine ⟨by omega, by simpa using h2, not_le.mp h3⟩
  · intro s roll_cdeg pitch_cdeg now hd h3 hb
    unfold should_weathervane
    rw [if_neg hd, if_neg (by simp), if_neg (by omega), if_pos hb]

/-- Witness for the amended C7: a configuration where the check fires
(no terrain, estimator at 1 m, minimum 2 m) and the gate disqualifies. -/
theorem below_min_height_char_witness :
    (below_min_height ⟨Direction.NOSE_IN, 1, 0, 2, 0, 0⟩ ⟨0, 0, 100, false, false, false, 0⟩ = true ↔
      0 < (⟨Direction.NOSE_IN, 1, 0, 2, 0, 0⟩ : Params).min_height ∧
      ¬((⟨0, 0, 100, false, false, false, 0⟩ : Env).terrain_available = true ∧
          (⟨0, 0, 100, false, false, false, 0⟩ : Env).terrain_enabled = true ∧
          (⟨0, 0, 100, false, false, false, 0⟩ : Env).terrain_lookup_ok = true ∧
          (((⟨Direction.NOSE_IN, 1, 0, 2, 0, 0⟩ : Params).min_height : ℚ)) ≤
            (⟨0, 0, 100, false, false, false, 0⟩ : Env).terrain_height_m) ∧
      (⟨0, 0, 100, false, false, false, 0⟩ : Env).altitude_cm * (1 / 100) <
        ((⟨Direction.NOSE_IN, 1, 0, 2, 0, 0⟩ : Params).min_height : ℚ)) ∧
    (∀ (s : State) (roll_cdeg pitch_cdeg : ℤ) (now : ℕ),
      (⟨Direction.NOSE_IN, 1, 0, 2, 0, 0⟩ : Params).direction ≠ Direction.OFF →
      3000 ≤ sub32 now s.last_pilot_input_ms →
      below_min_height ⟨Direction.NOSE_IN, 1, 0, 2, 0, 0⟩ ⟨0, 0, 100, false, false, false, 0⟩ = true →
      should_weathervane ⟨Direction.NOSE_IN, 1, 0, 2, 0, 0⟩ ⟨0, 0, 100, false, false, false, 0⟩
        s 0 roll_cdeg pitch_cdeg now = (false, s.reset)) :=
  below_min_height_char ⟨Direction.NOSE_IN, 1, 0, 2, 0, 0⟩ ⟨0, 0, 100, false, false, false, 0⟩

/-- Iterate get_yaw_rate_cds from a starting state, feeding the n-th call
the n-th lean-angle input pair; the value returned by the n-th call is the
stored last_output after n steps. -/
def yaw_stream (p : Params) (inputs : ℕ → ℤ × ℤ) (s : State) : ℕ → State
  | 0 => s
  | n + 1 => (get_yaw_rate_cds p (yaw_stream p inputs s n) (inputs n).1 (inputs n).2).2

/-- Along a run of get_yaw_rate_cds with no relax request and a constant
post-deadzone demand D, the relax flag stays clear and the stored output
after n calls is D * (1 - 0.98 ^ n). -/
theorem yaw_stream_formula (p : Params) (hd : p.direction ≠ Direction.OFF)
    (s : State) (h0 : s.last_output = 0) (hr : s.should_relax = false)
    (inputs : ℕ → ℤ × ℤ) (D : ℚ)
    (hD : ∀ n, apply_deadzone p (inputs n).1 (inputs n).2
        (raw_demand p (inputs n).1 (inputs n).2) = D) :
    ∀ n, (yaw_stream p inputs s n).should_relax = false ∧
      (yaw_stream p inputs s n).last_output = D * (1 - (98 / 100) ^ n) := by
  intro n
  induction n with
  | zero =>
    exact ⟨hr, by simp [yaw_stream, h0]⟩
  | succ n ih =>
    obtain ⟨ihr, iho⟩ := ih
    have hstep :=
      get_yaw_rate_cds_no_relax p hd (yaw_stream p inputs s n) ihr (inputs n).1 (inputs n).2
    constructor
    · simp [yaw_stream, hstep, ihr]
    · have hout : (yaw_stream p inputs s (n + 1)).last_output =
          slew (yaw_stream p inputs s n).last_output D := by
        simp [yaw_stream, hstep, hD n]
      rw [hout, iho, slew, pow_succ]
      ring

/-- C5: starting from last_output = 0 with no relax request, n calls of
get_yaw_rate_cds whose post-deadzone post-relax demand is the constant D
return D * (1 - 0.98 ^ n); for D > 0 the returned sequence is strictly
increasing and stays below D, symmetrically for D < 0, and it converges
toward D. -/
theorem slew_convergence (p : Params) (hd : p.direction ≠ Direction.OFF)
    (s : State) (h0 : s.last_output = 0) (hr : s.should_relax = false)
    (inputs : ℕ → ℤ × ℤ) (D : ℚ)
    (hD : ∀ n, apply_deadzone p (inputs n).1 (inputs n).2
        (raw_demand p (inputs n).1 (inputs n).2) = D) :
    (∀ n, (yaw_stream p inputs s n).last_output = D * (1 - (98 / 100) ^ n)) ∧
    (0 < D → StrictMono fun n => (yaw_stream p inputs s n).last_output) ∧
    (0 < D → ∀ n, (yaw_stream p inputs s n).last_output < D) ∧
    (D < 0 → StrictAnti fun n => (yaw_stream p inputs s n).last_output) ∧
    (D < 0 → ∀ n, D < (yaw_stream p inputs s n).last_output) ∧
    (∀ ε : ℚ, 0 < ε → ∃ N, ∀ n, N ≤ n →
      |(yaw_stream p inputs s n).last_output - D| < ε) ∧
    (∀ n, (get_yaw_rate_cds p (yaw_stream p inputs s n) (inputs n).1 (inputs n).2).1 =
      (yaw_stream p inputs s (n + 1)).last_output) := by
  have key := yaw_stream_formula p hd s h0 hr inputs D hD
  have hfor : ∀ n, (yaw_stream p inputs s n).last_output = D * (1 - (98 / 100) ^ n) :=
    fun n => (key n).2
  have hq0 : (0 : ℚ) < 98 / 100 := by norm_num
  have hq1 : (98 : ℚ) / 100 < 1 := by norm_num
  have hstep : ∀ n, ((98 : ℚ) / 100) ^ (n + 1) < ((98 : ℚ) / 100) ^ n :=
    fun n => pow_lt_pow_right_of_lt_one₀ hq0 hq1 (Nat.lt_succ_self n)
  refine ⟨hfor, ?_, ?_, ?_, ?_, ?_, ?_⟩
  · intro hD0
    apply strictMono_nat_of_lt_succ
    intro n
    simp only [hfor n, hfor (n + 1)]
    nlinarith [hstep n]
  · intro hD0 n
    rw [hfor n]
    nlinarith [pow_pos hq0 n]
  · intro hD0
    apply strictAnti_nat_of_succ_lt
    intro n
    simp only [hfor n, hfor (n + 1)]
    nlinarith [hstep n]
  · intro hD0 n
    rw [hfor n]
    nlinarith [pow_pos hq0 n]
  · intro ε hε
    have hden : (0 : ℚ) < |D| + 1 := by positivity
    obtain ⟨N, hN⟩ := exists_pow_lt_of_lt_one (div_pos hε hden) hq1
    refine ⟨N, fun n hn => ?_⟩
    rw [hfor n]
    have habs : |D * (1 - (98 / 100) ^ n) - D| = |D| * ((98 : ℚ) / 100) ^ n := by
      have hrw : D * (1 - (98 / 100 : ℚ) ^ n) - D = -(D * (98 / 100) ^ n) := by ring
      rw [hrw, abs_neg, abs_mul, abs_of_nonneg (le_of_lt (pow_pos hq0 n))]
    rw [habs]
    have hmono : ((98 : ℚ) / 100) ^ n ≤ ((98 : ℚ) / 100) ^ N :=
      pow_le_pow_of_le_one hq0.le hq1.le hn
    calc |D| * ((98 : ℚ) / 100) ^ n
        ≤ |D| * ((98 : ℚ) / 100) ^ N := mul_le_mul_of_nonneg_left hmono (abs_nonneg D)
      _ ≤ (|D| + 1) * ((98 : ℚ) / 100) ^ N := by nlinarith [pow_pos hq0 N]
      _ < (|D| + 1) * (ε / (|D| + 1)) := mul_lt_mul_of_pos_left hN hden
      _ = ε := by field_simp
  · intro n
    have hs := get_yaw_rate_cds_no_relax p hd (yaw_stream p inputs s n) (key n).1
      (inputs n).1 (inputs n).2
    simp [yaw_stream, hs]

/-- Constant inputs for the C5 witness: roll 1000 cdeg, pitch 0. -/
def inputsW : ℕ → ℤ × ℤ := fun _ => (1000, 0)

/-- Witness for C5: nose-in, gain 1, no deadzone, constant demand 1000. -/
theorem slew_convergence_witness :
    pNoseIn.direction ≠ Direction.OFF ∧ sInit.last_output = 0 ∧ sInit.should_relax = false ∧
    ((∀ n, (yaw_stream pNoseIn inputsW sInit n).last_output = 1000 * (1 - (98 / 100) ^ n)) ∧
    ((0 : ℚ) < 1000 → StrictMono fun n => (yaw_stream pNoseIn inputsW sInit n).last_output) ∧
    ((0 : ℚ) < 1000 → ∀ n, (yaw_stream pNoseIn inputsW sInit n).last_output < 1000) ∧
    ((1000 : ℚ) < 0 → StrictAnti fun n => (yaw_stream pNoseIn inputsW sInit n).last_output) ∧
    ((1000 : ℚ) < 0 → ∀ n, (1000 : ℚ) < (yaw_stream pNoseIn inputsW sInit n).last_output) ∧
    (∀ ε : ℚ, 0 < ε → ∃ N, ∀ n, N ≤ n →
      |(yaw_stream pNoseIn inputsW sInit n).last_output - 1000| < ε) ∧
    (∀ n, (get_yaw_rate_cds pNoseIn (yaw_stream pNoseIn inputsW sInit n)
        (inputsW n).1 (inputsW n).2).1 =
      (yaw_stream pNoseIn inputsW sInit (n + 1)).last_output)) :=
  ⟨by decide, rfl, rfl,
   slew_convergence pNoseIn (by decide) sInit rfl rfl inputsW 1000
     (fun n => by norm_num [apply_deadzone, raw_demand, pNoseIn, inputsW])⟩

/-- Unfolding equation for gate_trace on a cons cell. -/
theorem gate_trace_cons (p : Params) (s : State) (c : Call) (cs : List Call) :
    gate_trace p s (c :: cs) =
      should_weathervane p c.env s c.pilot_yaw c.roll_cdeg c.pitch_cdeg c.now ::
        gate_trace p
          (should_weathervane p c.env s c.pilot_yaw c.roll_cdeg c.pitch_cdeg c.now).2 cs := rfl

/-- A natural-number if-then-else pair rewritten through decide. -/
theorem settle_branch_eq (x : ℕ) (s' : State) :
    (if x < 2000 then ((false : Bool), s') else (true, s')) = (decide (2000 ≤ x), s') := by
  by_cases h : x < 2000
  · rw [if_pos h, decide_eq_false (Nat.not_le.mpr h)]
  · rw [if_neg h, decide_eq_true (Nat.not_lt.mp h)]

/-- When the checks of steps 1 to 6 all pass, the gate reduces to the
settle-window logic: latch first_activate_ms if it is 0, then return true
iff at least 2000 ms have elapsed since the latch, without resetting. -/
theorem gate_of_passes (p : Params) (e : Env) (s : State)
    (pilot_yaw roll_cdeg pitch_cdeg : ℤ) (now : ℕ)
    (h : passes_checks p e s.last_pilot_input_ms pilot_yaw now) :
    should_weathervane p e s pilot_yaw roll_cdeg pitch_cdeg now =
      (decide (2000 ≤ sub32 now
          (if s.first_activate_ms = 0 then u32 now else s.first_activate_ms)),
       if s.first_activate_ms = 0 then { s with first_activate_ms := u32 now } else s) := by
  obtain ⟨h1, h2, h3, h4, h5, h6⟩ := h
  unfold should_weathervane
  rw [if_neg h1, if_neg (by simp [h2]), if_neg (Nat.not_lt.mpr h3), if_neg (by simp [h4]),
    if_neg h5, if_neg h6]
  by_cases hfa : s.first_activate_ms = 0
  · simp only [hfa, if_pos rfl]
    exact settle_branch_eq _ _
  · simp only [if_neg hfa]
    exact settle_branch_eq _ _

/-- Once the settle latch holds a nonzero timestamp, every further call
whose checks pass leaves the state untouched and answers by comparing the
elapsed time against the 2000 ms settle window. -/
theorem gate_trace_latched (p : Params) (s : State) (t0 : ℕ)
    (hfa : s.first_activate_ms = u32 t0) (hne : u32 t0 ≠ 0) (cs : List Call)
    (hcs : ∀ c ∈ cs, passes_checks p c.env s.last_pilot_input_ms c.pilot_yaw c.now) :
    gate_trace p s cs = cs.map fun c => (decide (2000 ≤ sub32 c.now t0), s) := by
  induction cs with
  | nil => rfl
  | cons c cs ih =>
    have hc := hcs c (List.mem_cons_self _ _)
    have h1 := gate_of_passes p c.env s c.pilot_yaw c.roll_cdeg c.pitch_cdeg c.now hc
    rw [hfa, if_neg hne, if_neg hne, sub32_u32_right] at h1
    rw [gate_trace_cons, h1, List.map_cons]
    exact congrArg _ (ih fun c hc => hcs c (List.mem_cons_of_mem _ hc))

/-- C3 amended: if the state starts unlatched, the checks of steps 1 to 6
pass on a first call at time t0 with u32 t0 nonzero and keep passing on
every further call, then the first call latches first_activate_ms to
u32 t0 and every call in the sequence leaves the state otherwise
untouched (no reset) and returns true exactly when the wraparound-safe
elapsed time since t0 is at least 2000 ms. -/
theorem settle_delay (p : Params) (s : State) (c0 : Call) (cs : List Call)
    (hfa : s.first_activate_ms = 0) (hne : u32 c0.now ≠ 0)
    (h0 : passes_checks p c0.env s.last_pilot_input_ms c0.pilot_yaw c0.now)
    (hcs : ∀ c ∈ cs, passes_checks p c.env s.last_pilot_input_ms c.pilot_yaw c.now) :
    gate_trace p s (c0 :: cs) =
      (c0 :: cs).map fun c =>
        (decide (2000 ≤ sub32 c.now c0.now),
         { s with first_activate_ms := u32 c0.now }) := by
  have h1 := gate_of_passes p c0.env s c0.pilot_yaw c0.roll_cdeg c0.pitch_cdeg c0.now h0
  rw [hfa, if_pos rfl, if_pos rfl, sub32_u32_right] at h1
  rw [gate_trace_cons, h1, List.map_cons]
  refine congrArg _ ?_
  exact gate_trace_latched p { s with first_activate_ms := u32 c0.now } c0.now rfl hne cs hcs

/-- State for the C3 counterexample: the pilot-input timestamp sits 3000
ticks before the uint32 counter's wrap point, so both calls pass the
debounce check. -/
def sC3 : State := ⟨0, false, false, 0, 4294964296⟩

/-- First C3 counterexample call, at counter value 0. -/
def c30 : Call := ⟨eInit, 0, 0, 0, 0⟩

/-- Second C3 counterexample call, 2000 ms later. -/
def c31 : Call := ⟨eInit, 0, 0, 0, 2000⟩

/-- Counterexample to C3 as stated: with the gate conditions passing from
t0 = 0 onward, the call 2000 ms after t0 still returns false, because the
latch taken at counter value 0 stored 0, which reads as unlatched, so that
call re-latches at its own time instead of measuring 2000 ms from t0. -/
theorem settle_delay_counterexample :
    sC3.first_activate_ms = 0 ∧
    passes_checks pNoseIn c30.env sC3.last_pilot_input_ms c30.pilot_yaw c30.now ∧
    passes_checks pNoseIn c31.env sC3.last_pilot_input_ms c31.pilot_yaw c31.now ∧
    c31.now - c30.now = 2000 ∧
    (gate_trace pNoseIn sC3 [c30, c31]).map Prod.fst = [false, false] := by
  refine ⟨rfl, ?_, ?_, by decide, ?_⟩ <;> decide

/-- First C3 witness call, at counter value 3000. -/
def cw0 : Call := ⟨eInit, 0, 0, 0, 3000⟩

/-- Second C3 witness call, 1000 ms after the latch (inside the window). -/
def cw1 : Call := ⟨eInit, 0, 0, 0, 4000⟩

/-- Third C3 witness call, 2500 ms after the latch (past the window). -/
def cw2 : Call := ⟨eInit, 0, 0, 0, 5500⟩

/-- Witness for the amended C3 on a three-call sequence. -/
theorem settle_delay_witness :
    sInit.first_activate_ms = 0 ∧ u32 cw0.now ≠ 0 ∧
    gate_trace pNoseIn sInit [cw0, cw1, cw2] =
      [cw0, cw1, cw2].map fun c =>
        (decide (2000 ≤ sub32 c.now cw0.now),
         { sInit with first_activate_ms := u32 cw0.now }) :=
  ⟨rfl, by decide,
   settle_delay pNoseIn sInit cw0 [cw1, cw2] rfl (by decide) (by decide) (by decide)⟩

/-- Counterexample to C4 as stated: with direction OFF, a call with
nonzero pilot yaw at time 77 does not record 77 into
last_pilot_input_ms, because the enable check resets and returns before
the pilot-input branch runs. -/
theorem pilot_override_counterexample :
    pOFF.direction = Direction.OFF ∧
    (5 : ℤ) ≠ 0 ∧
    (should_weathervane pOFF eInit sInit 5 0 0 77).2.last_pilot_input_ms ≠ u32 77 := by
  decide

/-- Every call whose wraparound-safe distance from a recorded pilot input
stays under 3000 ms is rejected with a reset, as long as its own pilot
input is zero. -/
theorem gate_trace_debounced (p : Params) (hd : p.direction ≠ Direction.OFF) (t0 : ℕ)
    (cs : List Call) (hcs : ∀ c ∈ cs, c.pilot_yaw = 0 ∧ sub32 c.now t0 < 3000) :
    ∀ (s : State), s.last_pilot_input_ms = u32 t0 →
      ∀ r ∈ gate_trace p s cs, r = (false, s.reset) := by
  induction cs with
  | nil =>
    intro s _ r hr
    exact absurd hr (List.not_mem_nil r)
  | cons c cs ih =>
    intro s hs r hr
    have hc := hcs c (List.mem_cons_self _ _)
    have hfirst : should_weathervane p c.env s c.pilot_yaw c.roll_cdeg c.pitch_cdeg c.now =
        (false, s.reset) := by
      unfold should_weathervane
      rw [if_neg hd, if_neg (by simp [hc.1]),
        if_pos (by rw [hs, sub32_u32_right]; exact hc.2)]
    rw [gate_trace_cons, hfirst] at hr
    rcases List.mem_cons.mp hr with h | h
    · exact h
    · have := ih (fun c hc => hcs c (List.mem_cons_of_mem _ hc)) s.reset (by rw [← hs]; rfl) r h
      exact this


/-- C4 amended: with direction not OFF, a call with nonzero pilot yaw at
time t records u32 t into last_pilot_input_ms and resets the rest of the
state, returning false; and every later call whose wraparound-safe
distance from t is under 3000 ms, with zero pilot yaw of its own, again
returns false with the state reset and the recorded timestamp intact. -/
theorem pilot_override (p : Params) (hd : p.direction ≠ Direction.OFF) (s : State)
    (c0 : Call) (cs : List Call) (hp0 : c0.pilot_yaw ≠ 0)
    (hcs : ∀ c ∈ cs, c.pilot_yaw = 0 ∧ sub32 c.now c0.now < 3000) :
    ∀ r ∈ gate_trace p s (c0 :: cs),
      r = (false, (⟨0, false, false, 0, u32 c0.now⟩ : State)) := by
  intro r hr
  have hfirst : should_weathervane p c0.env s c0.pilot_yaw c0.roll_cdeg c0.pitch_cdeg c0.now =
      (false, (⟨0, false, false, 0, u32 c0.now⟩ : State)) := by
    unfold should_weathervane
    rw [if_neg hd, if_pos hp0]
    rfl
  rw [gate_trace_cons, hfirst] at hr
  rcases List.mem_cons.mp hr with h | h
  · exact h
  · exact gate_trace_debounced p hd c0.now cs hcs
      (⟨0, false, false, 0, u32 c0.now⟩ : State) rfl r h

/-- Pilot-input call for the C4 witness: pilot yaw 7 at counter value 50. -/
def cp0 : Call := ⟨eInit, 7, 0, 0, 50⟩

/-- Follow-up call for the C4 witness: zero pilot yaw 1999 ms later. -/
def cp1 : Call := ⟨eInit, 0, 0, 0, 2049⟩

/-- Witness for the amended C4 on a two-call sequence. -/
theorem pilot_override_witness :
    pNoseIn.direction ≠ Direction.OFF ∧ cp0.pilot_yaw ≠ 0 ∧
    ∀ r ∈ gate_trace pNoseIn s100 [cp0, cp1],
      r = (false, (⟨0, false, false, 0, u32 cp0.now⟩ : State)) :=
  ⟨by decide, by decide,
   pilot_override pNoseIn (by decide) s100 cp0 [cp1] (by decide) (by decide)⟩

/-- Modelled from the spec: the inter-call watchdog of the earlier source
variant, whose implementation file is not present under src/ (only the
header declaring the last_callback field is). Per spec section 4.6, if
more than 5000 ms elapse between consecutive invocations the controller
resets before evaluating the current cycle's eligibility; the call then
stores the current counter value as the new last_callback. -/
def should_weathervane_watchdog (p : Params) (e : Env) (s : State) (last_callback : ℕ)
    (pilot_yaw roll_cdeg pitch_cdeg : ℤ) (now : ℕ) : (Bool × State) × ℕ :=
  let s1 := if 5000 < sub32 now last_callback then s.reset else s
  (should_weathervane p e s1 pilot_yaw roll_cdeg pitch_cdeg now, u32 now)

/-- C9: when more than 5000 ms separate two consecutive invocations, the
watchdog resets the controller (zero output, cleared flags, cleared
latch) before the gate evaluates the new cycle, so a stale slewed output
cannot survive the gap. -/
theorem watchdog_resets (p : Params) (e : Env) (s : State) (last_callback : ℕ)
    (pilot_yaw roll_cdeg pitch_cdeg : ℤ) (now : ℕ)
    (h : 5000 < sub32 now last_callback) :
    should_weathervane_watchdog p e s last_callback pilot_yaw roll_cdeg pitch_cdeg now =
      (should_weathervane p e s.reset pilot_yaw roll_cdeg pitch_cdeg now, u32 now) ∧
    s.reset.last_output = 0 ∧ s.reset.should_relax = false ∧
    s.reset.active_msg_sent = false ∧ s.reset.first_activate_ms = 0 := by
  refine ⟨?_, rfl, rfl, rfl, rfl⟩
  unfold should_weathervane_watchdog
  rw [if_pos h]

/-- Witness for C9: a 6000 ms gap forces the reset. -/
theorem watchdog_resets_witness :
    5000 < sub32 6000 0 ∧
    (should_weathervane_watchdog pNoseIn eInit s100 0 0 0 0 6000 =
      (should_weathervane pNoseIn eInit s100.reset 0 0 0 6000, u32 6000) ∧
    s100.reset.last_output = 0 ∧ s100.reset.should_relax = false ∧
    s100.reset.active_msg_sent = false ∧ s100.reset.first_activate_ms = 0) :=
  ⟨by decide, watchdog_resets pNoseIn eInit s100 0 0 0 0 6000 (by decide)⟩

end WeatherVane
